import Mathlib

/-!
Verification of the kops task reconciliation fragments.

This file gives a shallow embedding of the task types and routines under
`src/`:

* `openstacktasks.Subnet` (src/unnamed/part_001): `CheckChanges`, `Find`,
  `NewSubnetTaskFromCloud`, `RenderOpenstack`;
* `openstacktasks.LBListener` (src/pkg/model/components/clusterautoscaler.go,
  second document): `CheckChanges`, `Find`, `NewLBListenerTaskFromCloud`,
  `RenderOpenstack`;
* `azuretasks.Disk` (src/upup/pkg/fi/cloudup/azuretasks/disk.go):
  `CheckChanges`, `Find`, `RenderAzure`;
* `awstasks.LaunchTemplate.RenderTerraform` and `TerraformLink`
  (src/upup/pkg/fi/cloudup/awstasks/launchtemplate_target_terraform.go);
* `dump.logDumper.DumpAllNodes` (src/unnamed/part_002).

Go pointers (`*T`) are modelled as `Option T`; a nil Go slice that the code
distinguishes from an empty one is modelled as `Option (List _)`.  Cloud SDK
calls are modelled by oracle records holding the responses the live cloud
would give, and each routine additionally returns the trace of cloud calls it
issues, so that "performs no network call" claims become statements about the
trace.
-/

namespace Kops

/-- Errors produced by the fi helpers `fi.RequiredField` and
`fi.CannotChangeField`, plus free-form `fmt.Errorf` errors. -/
inductive FiError where
  | requiredField (field : String)
  | cannotChangeField (field : String)
  | other (msg : String)
deriving DecidableEq, Repr

/-- A call made against the live cloud.  Constructors carry the payload that
the Go code passes to the corresponding SDK call. -/
inductive CloudCall where
  /-- `awsup.AWSCloud.ResolveImage` (read-only lookup). -/
  | awsResolveImage (name : String)
  /-- `azure.AzureCloud.Disk().CreateOrUpdate` (mutation). -/
  | azCreateOrUpdateDisk (resourceGroup name location : String)
      (sizeGB : Option Int) (volumeType : Option String)
      (tags : List (String × Option String)) (zones : List String)
  /-- `openstack.OpenstackCloud.CreateSubnet` (mutation). -/
  | osCreateSubnet (name networkID cidr : String) (dns : List String)
  /-- `openstack.OpenstackCloud.AppendTag` (mutation). -/
  | osAppendTag (resourceType id tag : String)
  /-- `subnets.Update` via the networking client (mutation). -/
  | osUpdateSubnet (id : String) (dns : Option (List String))
  /-- `openstack.OpenstackCloud.UseLoadBalancerVIPACL` (read-only lookup). -/
  | osUseLoadBalancerVIPACL
  /-- `openstack.OpenstackCloud.CreateListener` (mutation). -/
  | osCreateListener (name poolID lbID : String) (port : Int)
      (allowedCIDRs : List String)
  /-- `listeners.Update` via the loadbalancer client (mutation). -/
  | osUpdateListener (id : String) (allowedCIDRs : List String)
deriving DecidableEq, Repr

/-- Whether a cloud call mutates live infrastructure (as opposed to a
read-only lookup). -/
def CloudCall.isMutation : CloudCall → Bool
  | .awsResolveImage _ => false
  | .osUseLoadBalancerVIPACL => false
  | _ => true

/-- The cloud mutations contained in a call trace. -/
def mutations (trace : List CloudCall) : List CloudCall :=
  trace.filter CloudCall.isMutation

/-! ## OpenStack task types (src/unnamed/part_001 and the LBListener file) -/

/-- The `openstacktasks.Network` task, as referenced by `Subnet`: the subnet
code reads only its `ID` (and passes it around by pointer). -/
structure Network where
  ID : Option String := none
  Name : Option String := none
  Tag : Option String := none
deriving DecidableEq, Repr

/-- The `openstacktasks.Subnet` task (src/unnamed/part_001).
`DNSServers` is a Go slice of string pointers; `RenderOpenstack`
distinguishes a nil `changes.DNSServers` from an empty one, so the field is
an `Option (List (Option String))`. -/
structure Subnet where
  ID : Option String := none
  Name : Option String := none
  Network : Option Network := none
  CIDR : Option String := none
  DNSServers : Option (List (Option String)) := none
  Tag : Option String := none
deriving DecidableEq, Repr

/-- The `openstacktasks.LB` task as referenced through `LBPool.Loadbalancer`:
the listener code reads its `ID` and `Provider`. -/
structure LB where
  ID : Option String := none
  Name : Option String := none
  Provider : Option String := none
deriving DecidableEq, Repr

/-- The `openstacktasks.LBPool` task as referenced by `LBListener`. -/
structure LBPool where
  ID : Option String := none
  Name : Option String := none
  Loadbalancer : Option LB := none
deriving DecidableEq, Repr

/-- The `openstacktasks.LBListener` task (second document of
src/pkg/model/components/clusterautoscaler.go). `AllowedCIDRs` is a plain
string slice: the code only ever tests its length. -/
structure LBListener where
  ID : Option String := none
  Name : Option String := none
  Port : Option Int := none
  Pool : Option LBPool := none
  AllowedCIDRs : List String := []
deriving DecidableEq, Repr

/-- `Subnet.CheckChanges` (src/unnamed/part_001 lines 199-222). -/
def Subnet.CheckChanges (a : Option Subnet) (e changes : Subnet) :
    Option FiError :=
  match a with
  | none =>
    if e.Name = none then some (.requiredField "Name")
    else if e.Network = none then some (.requiredField "Network")
    else if e.CIDR = none then some (.requiredField "CIDR")
    else none
  | some _ =>
    if changes.Name ≠ none then some (.cannotChangeField "Name")
    else if changes.Network ≠ none then some (.cannotChangeField "Network")
    else if changes.CIDR ≠ none then some (.cannotChangeField "CIDR")
    else none

/-- `LBListener.CheckChanges` (clusterautoscaler.go second document,
lines 237-251). -/
def LBListener.CheckChanges (a : Option LBListener) (e changes : LBListener) :
    Option FiError :=
  match a with
  | none =>
    if e.Name = none then some (.requiredField "Name")
    else none
  | some _ =>
    if changes.ID ≠ none then some (.cannotChangeField "ID")
    else if changes.Name ≠ none then some (.cannotChangeField "Name")
    else none

/-! ## Azure Disk task (src/upup/pkg/fi/cloudup/azuretasks/disk.go) -/

/-- The `azuretasks.ResourceGroup` task as referenced by `Disk`: the disk
code reads only its `Name`. -/
structure ResourceGroup where
  Name : Option String := none
deriving DecidableEq, Repr

/-- The `azuretasks.Disk` task (disk.go lines 31-40).  `Tags` is a Go
`map[string]*string`, modelled as an association list. -/
structure Disk where
  Name : Option String := none
  ResourceGroup : Option ResourceGroup := none
  SizeGB : Option Int := none
  Tags : List (String × Option String) := []
  VolumeType : Option String := none
  Zones : List String := []
deriving DecidableEq, Repr

/-- `Disk.CheckChanges` (disk.go lines 102-116). -/
def Disk.CheckChanges (a : Option Disk) (e changes : Disk) :
    Option FiError :=
  match a with
  | none =>
    if e.Name = none then some (.requiredField "Name")
    else none
  | some _ =>
    if changes.Name ≠ none then some (.cannotChangeField "Name")
    else none

/-! ## Empty changes objects

Per the spec (§3), a changes object field is present only when actual and
expected differ on it; the object is empty when every field is absent. -/

/-- An empty `Subnet` changes object: every field absent. -/
def Subnet.changesEmpty (c : Subnet) : Bool :=
  c.ID = none && c.Name = none && c.Network = none && c.CIDR = none &&
    c.DNSServers = none && c.Tag = none

/-- An empty `LBListener` changes object: every field absent. -/
def LBListener.changesEmpty (c : LBListener) : Bool :=
  c.ID = none && c.Name = none && c.Port = none && c.Pool = none &&
    c.AllowedCIDRs = []

/-- An empty `Disk` changes object: every field absent. -/
def Disk.changesEmpty (c : Disk) : Bool :=
  c.Name = none && c.ResourceGroup = none && c.SizeGB = none &&
    c.Tags = [] && c.VolumeType = none && c.Zones = []

/-! ## The engine's per-task run sequence -/

/-- Terminal outcome of one task's reconciliation pass. -/
inductive RunOutcome where
  /-- actual was non-nil and the changes object was empty: the apply routine
  was invoked zero times. -/
  | skippedNoChanges
  /-- the validation routine rejected the changes; the apply routine was not
  reached. -/
  | validationFailed (err : FiError)
  /-- validation passed and the backend apply routine was invoked. -/
  | rendered
deriving DecidableEq, Repr

/-- Modelled from the spec: `fi.CloudupDefaultDeltaRunMethod` is not under
src/.  Per spec §4.2-§4.4 and §8, for each task the engine computes the
changes object, invokes the apply routine zero times when actual is non-nil
and the changes object is empty, and otherwise invokes the task's validation
routine with (actual, expected, changes), reaching the apply routine only
when validation returns no error. -/
def engineRun {τ : Type} (changesEmpty : τ → Bool)
    (check : Option τ → τ → τ → Option FiError)
    (a : Option τ) (e c : τ) : RunOutcome :=
  if a.isSome && changesEmpty c then .skippedNoChanges
  else
    match check a e c with
    | some err => .validationFailed err
    | none => .rendered

/-! ## Discovery (Find) routines

Discovery consumes the live cloud's responses; these are supplied as oracle
values.  The Go `Find` methods also mutate the receiver task (the `find`
write-back in the `New...TaskFromCloud` constructors), so the models return
the updated expected task alongside the result. -/

/-- A `subnets.Subnet` as returned by the OpenStack networking API. -/
structure OSSubnet where
  ID : String := ""
  Name : String := ""
  NetworkID : String := ""
  CIDR : String := ""
  DNSNameservers : List String := []
  Tags : List String := []
deriving DecidableEq, Repr

/-- Oracle for the OpenStack cloud calls `Subnet.Find` makes.
`listSubnets` may succeed with a nil slice (`none`) or a non-nil slice
(`some rs`) — the Go code distinguishes the two.  `getNetworkTask` abstracts
`cloud.GetNetwork` followed by `NewNetworkTaskFromCloud` (network.go is not
under src/): it returns the network task built for a network ID. -/
structure OSSubnetCloud where
  listSubnets : Except String (Option (List OSSubnet))
  getNetworkTask : String → Except String Network

/-- `NewSubnetTaskFromCloud` (src/unnamed/part_001 lines 138-171), returning
the actual task together with the updated `find` task (the Go code assigns
`find.ID = actual.ID`). -/
def NewSubnetTaskFromCloud (cloud : OSSubnetCloud) (subnet : OSSubnet)
    (find : Subnet) : Except String (Subnet × Subnet) :=
  match cloud.getNetworkTask subnet.NetworkID with
  | .error err =>
    .error ("NewSubnetTaskFromCloud: Failed to get network with ID " ++
      subnet.NetworkID ++ ": " ++ err)
  | .ok networkTask =>
    let nameservers : List (Option String) := subnet.DNSNameservers.map some
    let tag : String :=
      if subnet.Tags.contains ((find.Tag).getD "") then (find.Tag).getD ""
      else ""
    let actual : Subnet :=
      { ID := some subnet.ID
        Name := some subnet.Name
        Network := some networkTask
        CIDR := some subnet.CIDR
        DNSServers := some nameservers
        Tag := some tag }
    .ok (actual, { find with ID := actual.ID })

/-- `Subnet.Find` (src/unnamed/part_001 lines 173-193).  Returns the
discovery result paired with the (possibly updated) expected task. -/
def Subnet.Find (cloud : OSSubnetCloud) (s : Subnet) :
    Except String (Option Subnet × Subnet) :=
  match cloud.listSubnets with
  | .error err => .error err
  | .ok none => .ok (none, s)
  | .ok (some rs) =>
    -- `len(rs) != 1` is the error path; a singleton proceeds with `rs[0]`
    match rs with
    | [subnet] =>
      match NewSubnetTaskFromCloud cloud subnet s with
      | .error err => .error err
      | .ok (actual, updated) => .ok (some actual, updated)
    | _ => .error ("found multiple subnets with name: " ++ (s.Name).getD "")

/-- A `listeners.Listener` as returned by the OpenStack loadbalancer API. -/
structure OSListener where
  ID : String := ""
  Name : String := ""
  ProtocolPort : Int := 0
  AllowedCIDRs : List String := []
  Pools : List String := []
  DefaultPoolID : String := ""
deriving DecidableEq, Repr

/-- Oracle for the cloud calls `LBListener.Find` makes.  `mkPoolTask`
abstracts `NewLBPoolTaskFromCloud` (lbpool code is not under src/): given a
pool ID it returns the constructed `LBPool` task.  `getPool` abstracts
`cloud.GetPool`, which resolves `DefaultPoolID` before the task is built. -/
structure OSListenerCloud where
  listListeners : Except String (List OSListener)
  getPool : String → Except String String
  mkPoolTask : String → Option LBPool → Except String LBPool

/-- `NewLBListenerTaskFromCloud` (clusterautoscaler.go second document lines
168-208), returning the actual task together with the updated `find` task
(the Go code assigns `find.ID`, `find.Name` and `find.Pool`). -/
def NewLBListenerTaskFromCloud (cloud : OSListenerCloud)
    (listener : OSListener) (find : LBListener) :
    Except String (LBListener × LBListener) :=
  let base : LBListener :=
    { ID := some listener.ID
      Name := some listener.Name
      Port := some listener.ProtocolPort
      AllowedCIDRs := listener.AllowedCIDRs.mergeSort (· ≤ ·)
      Pool := none }
  let poolResult : Except String LBPool :=
    match listener.Pools with
    | poolID :: _ =>
      -- only the first pool is used (the Go loop breaks after one)
      cloud.mkPoolTask poolID find.Pool
    | [] =>
      match cloud.getPool listener.DefaultPoolID with
      | .error err =>
        .error ("Fail to get pool with ID: " ++ listener.DefaultPoolID ++
          ": " ++ err)
      | .ok poolID => cloud.mkPoolTask poolID find.Pool
  match poolResult with
  | .error err => .error err
  | .ok poolTask =>
    let actual := { base with Pool := some poolTask }
    .ok (actual,
      { find with ID := actual.ID, Name := actual.Name, Pool := actual.Pool })

/-- `LBListener.Find` (clusterautoscaler.go second document lines 210-231). -/
def LBListener.Find (cloud : OSListenerCloud) (s : LBListener) :
    Except String (Option LBListener × LBListener) :=
  if s.Name = none then .ok (none, s)
  else
    match cloud.listListeners with
    | .error err =>
      .error ("Failed to list loadbalancer listeners for name " ++
        (s.Name).getD "" ++ ": " ++ err)
    | .ok listenerList =>
      if listenerList.length = 0 then .ok (none, s)
      else if listenerList.length > 1 then
        .error ("Multiple listeners found with name " ++ (s.Name).getD "")
      else
        match listenerList with
        | [l] =>
          match NewLBListenerTaskFromCloud cloud l s with
          | .error err => .error err
          | .ok (actual, updated) => .ok (some actual, updated)
        | [] => .ok (none, s)
        | _ :: _ :: _ => .error "unreachable"

/-- A `compute.Disk` as returned by the Azure API listing.  `SKUName` is
`found.SKU.Name` flattened (`none` when the SKU or its name is nil). -/
structure AzureCloudDisk where
  Name : String := ""
  SizeGB : Option Int := none
  Tags : List (String × Option String) := []
  Zones : List String := []
  SKUName : Option String := none
deriving DecidableEq, Repr

/-- `Disk.Find` (disk.go lines 54-89): lists the disks of the resource group
and linearly scans for the first one whose name equals the task's name; no
ambiguity check is performed.  `listing` is the response of
`cloud.Disk().List`. -/
def Disk.Find (listing : Except String (List AzureCloudDisk)) (d : Disk) :
    Except String (Option Disk) :=
  match listing with
  | .error err => .error err
  | .ok l =>
    match l.find? (fun v => some v.Name = d.Name) with
    | none => .ok none
    | some found =>
      .ok (some
        { Name := d.Name
          ResourceGroup := some { Name := (d.ResourceGroup.map (·.Name)).getD none }
          SizeGB := found.SizeGB
          Tags := found.Tags
          Zones := found.Zones
          VolumeType := found.SKUName })

/-! ## Direct-apply (render) routines

Each render model returns the trace of cloud calls it issued together with
either an error or the (possibly updated) expected task — the Go methods
mutate `e` in place; here the update is returned. -/

/-- Oracle responses of the OpenStack API target used by
`Subnet.RenderOpenstack`: `createSubnet` yields the created subnet's
provider-assigned ID. -/
structure OSSubnetTarget where
  createSubnet : Except String String
  appendTag : Except String Unit
  updateSubnet : Except String Unit

/-- The network ID dereference `fi.ValueOf(e.Network.ID)`; the Go code
assumes `e.Network` is non-nil (validation requires it on create). -/
def Subnet.networkID (e : Subnet) : String :=
  ((e.Network.map (·.ID)).getD none).getD ""

/-- The DNS name server payload `e.DNSServers` mapped through
`fi.ValueOf`. -/
def Subnet.dnsPayload (e : Subnet) : List String :=
  ((e.DNSServers).getD []).map (·.getD "")

/-- `Subnet.RenderOpenstack` (src/unnamed/part_001 lines 224-283). -/
def Subnet.RenderOpenstack (t : OSSubnetTarget) (a : Option Subnet)
    (e changes : Subnet) : List CloudCall × Except String Subnet :=
  match a with
  | none =>
    let dns : List String :=
      if ((e.DNSServers).getD []).length > 0 then e.dnsPayload else []
    let createCall : CloudCall :=
      .osCreateSubnet ((e.Name).getD "") e.networkID ((e.CIDR).getD "") dns
    match t.createSubnet with
    | .error err => ([createCall], .error ("Error creating subnet: " ++ err))
    | .ok newID =>
      let tagCall : CloudCall := .osAppendTag "subnet" newID ((e.Tag).getD "")
      match t.appendTag with
      | .error err =>
        ([createCall, tagCall],
          .error ("Error appending tag to subnet: " ++ err))
      | .ok _ => ([createCall, tagCall], .ok { e with ID := some newID })
  | some a0 =>
    let tagCalls : List CloudCall :=
      match changes.Tag with
      | some tag => [.osAppendTag "subnet" ((a0.ID).getD "") tag]
      | none => []
    match changes.Tag, t.appendTag with
    | some _, .error err =>
      (tagCalls, .error ("error appending tag to subnet: " ++ err))
    | _, _ =>
      let dns : Option (List String) :=
        if changes.DNSServers ≠ none then some e.dnsPayload else none
      let updateCall : CloudCall := .osUpdateSubnet ((a0.ID).getD "") dns
      match t.updateSubnet with
      | .error err =>
        (tagCalls ++ [updateCall],
          .error ("error updating subnet " ++ (a0.ID).getD "" ++ ": " ++ err))
      | .ok _ => (tagCalls ++ [updateCall], .ok { e with ID := a0.ID })

/-- Oracle responses of the OpenStack API target used by
`LBListener.RenderOpenstack`: `useVIPACL` is the result of the (read-only)
`UseLoadBalancerVIPACL` probe; `createListener` yields the created
listener's provider-assigned ID. -/
structure OSListenerTarget where
  useVIPACL : Except String Bool
  createListener : Except String String
  updateListener : Except String Unit

/-- The loadbalancer provider of a listener's pool,
`fi.ValueOf(x.Pool.Loadbalancer.Provider)`. -/
def LBListener.lbProvider (x : LBListener) : String :=
  ((((x.Pool.map (·.Loadbalancer)).getD none).map (·.Provider)).getD
    none).getD ""

/-- `LBListener.RenderOpenstack` (clusterautoscaler.go second document lines
253-295). -/
def LBListener.RenderOpenstack (t : OSListenerTarget) (a : Option LBListener)
    (e changes : LBListener) : List CloudCall × Except String LBListener :=
  let probe : CloudCall := .osUseLoadBalancerVIPACL
  match t.useVIPACL with
  | .error err => ([probe], .error err)
  | .ok useVIPACL =>
    match a with
    | none =>
      let allowed : List String :=
        if useVIPACL && e.lbProvider ≠ "ovn" then e.AllowedCIDRs else []
      let createCall : CloudCall :=
        .osCreateListener ((e.Name).getD "")
          (((e.Pool.map (·.ID)).getD none).getD "")
          (((((e.Pool.map (·.Loadbalancer)).getD none).map (·.ID)).getD
            none).getD "")
          ((e.Port).getD 0) allowed
      match t.createListener with
      | .error err =>
        ([probe, createCall], .error ("error creating LB listener: " ++ err))
      | .ok newID => ([probe, createCall], .ok { e with ID := some newID })
    | some a0 =>
      if changes.AllowedCIDRs.length > 0 then
        if useVIPACL && a0.lbProvider ≠ "ovn" then
          let updateCall : CloudCall :=
            .osUpdateListener ((a0.ID).getD "") changes.AllowedCIDRs
          match t.updateListener with
          | .error err =>
            ([probe, updateCall],
              .error ("error updating LB listener: " ++ err))
          | .ok _ => ([probe, updateCall], .ok e)
        else
          -- "Openstack Octavia VIPACLs not supported": log only
          ([probe], .ok e)
      else
        -- "Openstack task LB::RenderOpenstack did nothing"
        ([probe], .ok e)

/-- `Disk.RenderAzure` (disk.go lines 119-149): unconditionally issues one
`CreateOrUpdate` call built from the expected task, whether or not the disk
already exists and whatever the changes object holds.  `region` is
`t.Cloud.Region()`. -/
def Disk.RenderAzure (region : String) (a : Option Disk) (e changes : Disk) :
    List CloudCall :=
  [.azCreateOrUpdateDisk (((e.ResourceGroup.map (·.Name)).getD none).getD "")
    ((e.Name).getD "") region e.SizeGB e.VolumeType e.Tags e.Zones]

/-! ## Terraform template emission
(src/upup/pkg/fi/cloudup/awstasks/launchtemplate_target_terraform.go) -/

/-- A `terraformWriter.Literal`: either a symbolic cross-resource reference
`type.name.attribute` (`LiteralProperty`), a plain string value, or a
reference to a file emitted next to the template (`AddFileBytes`). -/
inductive TFLiteral where
  | property (resourceType resourceName attr : String)
  | stringValue (s : String)
  | fileRef (resourceType resourceName attr : String)
deriving DecidableEq, Repr

/-- The `awstasks.SecurityGroup` task as referenced by `LaunchTemplate`
(only its name and identifier matter here). -/
structure SecurityGroup where
  Name : Option String := none
  ID : Option String := none
deriving DecidableEq, Repr

/-- The `awstasks.SSHKey` task as referenced by `LaunchTemplate`. -/
structure SSHKey where
  Name : Option String := none
  ID : Option String := none
deriving DecidableEq, Repr

/-- The `awstasks.IAMInstanceProfile` task as referenced by
`LaunchTemplate`. -/
structure IAMInstanceProfile where
  Name : Option String := none
  ID : Option String := none
deriving DecidableEq, Repr

/-- Modelled from the spec: `SecurityGroup.TerraformLink` (securitygroup.go
is not under src/).  Per spec §4.4 the template backend emits, for every
field referencing another task, a symbolic reference through the deferred
reference table rather than the task's identifier. -/
def SecurityGroup.TerraformLink (sg : SecurityGroup) : TFLiteral :=
  .property "aws_security_group" ((sg.Name).getD "") "id"

/-- Modelled from the spec: `SSHKey.TerraformLink` (sshkey.go is not under
src/); a symbolic reference to the key pair resource. -/
def SSHKey.TerraformLink (k : SSHKey) : TFLiteral :=
  .property "aws_key_pair" ((k.Name).getD "") "key_name"

/-- Modelled from the spec: `IAMInstanceProfile.TerraformLink`
(iaminstanceprofile.go is not under src/); a symbolic reference to the
profile resource. -/
def IAMInstanceProfile.TerraformLink (p : IAMInstanceProfile) : TFLiteral :=
  .property "aws_iam_instance_profile" ((p.Name).getD "") "id"

/-- An `awstasks.BlockDeviceMapping` as used by the launch template
renders. -/
structure BlockDeviceMapping where
  DeviceName : Option String := none
  VirtualName : Option String := none
  EbsEncrypted : Option Bool := none
  EbsKmsKey : Option String := none
  EbsVolumeIops : Option Int := none
  EbsVolumeThroughput : Option Int := none
  EbsVolumeSize : Option Int := none
  EbsVolumeType : String := ""
deriving DecidableEq, Repr

/-- The `awstasks.LaunchTemplate` task, restricted to the fields
`RenderTerraform` reads. -/
structure LaunchTemplate where
  Name : Option String := none
  RootVolumeOptimization : Option Bool := none
  ImageID : Option String := none
  InstanceType : Option String := none
  HTTPTokens : Option String := none
  HTTPPutResponseHopLimit : Option Int := none
  HTTPProtocolIPv6 : Option String := none
  AssociatePublicIP : Option Bool := none
  IPv6AddressCount : Option Int := none
  SpotPrice : Option String := none
  SpotDurationInMinutes : Option Int := none
  InstanceInterruptionBehavior : Option String := none
  CPUCredits : Option String := none
  SecurityGroups : List SecurityGroup := []
  SSHKey : Option SSHKey := none
  Tenancy : Option String := none
  InstanceMonitoring : Option Bool := none
  IAMInstanceProfile : Option IAMInstanceProfile := none
  UserData : Option String := none
  BlockDeviceMappings : List BlockDeviceMapping := []
  Tags : Option (List (String × String)) := none
deriving DecidableEq, Repr

/-- `LaunchTemplate.TerraformLink` (launchtemplate_target_terraform.go lines
171-173): `terraformWriter.LiteralProperty("aws_launch_template", name,
"id")`. -/
def LaunchTemplate.TerraformLink (t : LaunchTemplate) : TFLiteral :=
  .property "aws_launch_template" ((t.Name).getD "") "id"

/-- `LaunchTemplate.VersionLink` (launchtemplate_target_terraform.go lines
176-178). -/
def LaunchTemplate.VersionLink (t : LaunchTemplate) : TFLiteral :=
  .property "aws_launch_template" ((t.Name).getD "") "latest_version"

/-- The `terraformLaunchTemplateBlockDeviceEBS` output struct. -/
structure TFBlockDeviceEBS where
  VolumeType : Option String := none
  VolumeSize : Option Int := none
  IOPS : Option Int := none
  Throughput : Option Int := none
  DeleteOnTermination : Option Bool := none
  Encrypted : Option Bool := none
  KmsKeyID : Option String := none
deriving DecidableEq, Repr

/-- The `terraformLaunchTemplateBlockDevice` output struct. -/
structure TFBlockDevice where
  DeviceName : Option String := none
  VirtualName : Option String := none
  EBS : List TFBlockDeviceEBS := []
deriving DecidableEq, Repr

/-- The `terraformLaunchTemplateNetworkInterface` output struct. -/
structure TFNetworkInterface where
  AssociatePublicIPAddress : Option Bool := none
  DeleteOnTermination : Option Bool := none
  Ipv6AddressCount : Option Int := none
  SecurityGroups : List TFLiteral := []
deriving DecidableEq, Repr

/-- The `terraformLaunchTemplateIAMProfile` output struct. -/
structure TFIAMProfile where
  Name : Option TFLiteral := none
deriving DecidableEq, Repr

/-- The `terraformLaunchTemplateMarketOptionsSpotOptions` output struct. -/
structure TFSpotOptions where
  BlockDurationMinutes : Option Int := none
  InstanceInterruptionBehavior : Option String := none
  MaxPrice : Option String := none
deriving DecidableEq, Repr

/-- The `terraformLaunchTemplateMarketOptions` output struct. -/
structure TFMarketOptions where
  MarketType : Option String := none
  SpotOptions : List TFSpotOptions := []
deriving DecidableEq, Repr

/-- The `terraformLaunchTemplateCreditSpecification` output struct. -/
structure TFCreditSpecification where
  CPUCredits : Option String := none
deriving DecidableEq, Repr

/-- The `terraformLaunchTemplateTagSpecification` output struct. -/
structure TFTagSpecification where
  ResourceType : Option String := none
  Tags : List (String × String) := []
deriving DecidableEq, Repr

/-- The `terraformLaunchTemplateInstanceMetadata` output struct. -/
structure TFInstanceMetadata where
  HTTPEndpoint : Option String := none
  HTTPPutResponseHopLimit : Option Int := none
  HTTPTokens : Option String := none
  HTTPProtocolIPv6 : Option String := none
deriving DecidableEq, Repr

/-- The `terraformLaunchTemplateMonitoring` output struct. -/
structure TFMonitoring where
  Enabled : Option Bool := none
deriving DecidableEq, Repr

/-- The `terraformLaunchTemplatePlacement` output struct (only `Tenancy` is
ever set by the render). -/
structure TFPlacement where
  Tenancy : Option String := none
deriving DecidableEq, Repr

/-- The `terraformLaunchTemplate` output struct (the resource block appended
to the in-memory terraform document).  `CreateBeforeDestroy` stands for the
`lifecycle` block. -/
structure TFLaunchTemplate where
  Name : Option String := none
  CreateBeforeDestroy : Option Bool := none
  BlockDeviceMappings : List TFBlockDevice := []
  CreditSpecification : Option TFCreditSpecification := none
  EBSOptimized : Option Bool := none
  IAMInstanceProfile : List TFIAMProfile := []
  ImageID : Option String := none
  InstanceType : Option String := none
  KeyName : Option TFLiteral := none
  MarketOptions : List TFMarketOptions := []
  MetadataOptions : Option TFInstanceMetadata := none
  Monitoring : List TFMonitoring := []
  NetworkInterfaces : List TFNetworkInterface := []
  Placement : List TFPlacement := []
  Tags : List (String × String) := []
  TagSpecifications : List TFTagSpecification := []
  UserData : Option TFLiteral := none
deriving DecidableEq, Repr

/-- A Go `map[string]V`: a set of keys (listed in the arbitrary iteration
order of this run) together with the lookup function.  Two runs over the
same map see the same `get` but possibly different orderings of `keys`. -/
structure GoMap (V : Type) where
  keys : List String
  get : String → Option V

/-- `maps.SortedKeys`: the map's keys in sorted order. -/
def GoMap.sortedKeys {V : Type} (m : GoMap V) : List String :=
  m.keys.insertionSort (· ≤ ·)

/-- `createTerraformLaunchTemplateBlockDevice`
(launchtemplate_target_terraform.go lines 317-332). -/
def createTerraformLaunchTemplateBlockDevice (deviceName : String)
    (v : BlockDeviceMapping) : TFBlockDevice :=
  { DeviceName := some deviceName
    EBS := [{ DeleteOnTermination := some true
              Encrypted := v.EbsEncrypted
              KmsKeyID := v.EbsKmsKey
              IOPS := v.EbsVolumeIops
              Throughput := v.EbsVolumeThroughput
              VolumeSize := v.EbsVolumeSize
              VolumeType := some v.EbsVolumeType }] }

/-- Oracle for the cloud lookups `RenderTerraform` performs.
`resolveImage` is the response of `cloud.ResolveImage` (the resolved
`im.ImageId`, itself a nullable pointer).  `rootDevices` and
`ephemeralDevices` are the results of the helpers `e.buildRootDevice(cloud)`
and `buildEphemeralDevices(cloud, instanceType)` (launchtemplate helpers not
under src/), which consult the cloud read-only and return
`map[string]*BlockDeviceMapping`. -/
structure AWSCloud where
  resolveImage : String → Except String (Option String)
  rootDevices : Except String (GoMap BlockDeviceMapping)
  ephemeralDevices : Except String (GoMap BlockDeviceMapping)

/-- Modelled from the spec: `buildAdditionalDevices`
(launchtemplate helpers not under src/) keys each of the task's block device
mappings by its device name, failing when a device name is unset. -/
def buildAdditionalDevices (volumes : List BlockDeviceMapping) :
    Except String (GoMap BlockDeviceMapping) :=
  if volumes.any (fun v => v.DeviceName = none) then
    .error "DeviceName not set for volume"
  else
    .ok { keys := volumes.filterMap (·.DeviceName)
          get := fun k => volumes.find? (fun v => v.DeviceName = some k) }

/-- The block devices a map contributes, in sorted device-name order
(`maps.SortedKeys` then one `createTerraformLaunchTemplateBlockDevice` per
key). -/
def ebsBlockDevices (m : GoMap BlockDeviceMapping) : List TFBlockDevice :=
  m.sortedKeys.filterMap
    (fun k => (m.get k).map (createTerraformLaunchTemplateBlockDevice k))

/-- The ephemeral block devices a map contributes, in sorted device-name
order (`VirtualName`/`DeviceName` only, lines 294-300). -/
def ephemeralBlockDevices (m : GoMap BlockDeviceMapping) :
    List TFBlockDevice :=
  m.sortedKeys.filterMap
    (fun k => (m.get k).map (fun v =>
      ({ VirtualName := v.VirtualName, DeviceName := some k } : TFBlockDevice)))

/-- The body of `LaunchTemplate.RenderTerraform` after image resolution
(launchtemplate_target_terraform.go lines 195-314).  The Go code assembles
the resource block by a sequence of conditional updates to pairwise-distinct
fields of `tf`; the net record is written here in one literal, field by
field, in the order the Go code settles them. -/
def LaunchTemplate.renderBody (cloud : AWSCloud) (e : LaunchTemplate)
    (image : Option String) : Except String TFLaunchTemplate :=
  match cloud.rootDevices with
  | .error err => .error err
  | .ok rootM =>
    match buildAdditionalDevices e.BlockDeviceMappings with
    | .error err => .error err
    | .ok addM =>
      match cloud.ephemeralDevices with
      | .error err => .error err
      | .ok ephM =>
        .ok
          { Name := e.Name
            EBSOptimized := e.RootVolumeOptimization
            ImageID := image
            InstanceType := e.InstanceType
            CreateBeforeDestroy := some true
            MetadataOptions := some
              { HTTPEndpoint := some "enabled"
                HTTPTokens := e.HTTPTokens
                HTTPPutResponseHopLimit := e.HTTPPutResponseHopLimit
                HTTPProtocolIPv6 := e.HTTPProtocolIPv6 }
            NetworkInterfaces :=
              [{ AssociatePublicIPAddress := e.AssociatePublicIP
                 DeleteOnTermination := some true
                 Ipv6AddressCount := e.IPv6AddressCount
                 SecurityGroups :=
                   e.SecurityGroups.map SecurityGroup.TerraformLink }]
            MarketOptions :=
              if (e.SpotPrice).getD "" ≠ "" then
                [{ MarketType := some "spot"
                   SpotOptions :=
                     [{ BlockDurationMinutes := e.SpotDurationInMinutes
                        InstanceInterruptionBehavior :=
                          e.InstanceInterruptionBehavior
                        MaxPrice := e.SpotPrice }] }]
              else []
            CreditSpecification :=
              if (e.CPUCredits).getD "" ≠ "" then
                some { CPUCredits := e.CPUCredits }
              else none
            KeyName := e.SSHKey.map SSHKey.TerraformLink
            Placement :=
              match e.Tenancy with
              | some ten => [{ Tenancy := some ten }]
              | none => []
            Monitoring :=
              match e.InstanceMonitoring with
              | some m => [{ Enabled := some m }]
              | none => []
            IAMInstanceProfile :=
              match e.IAMInstanceProfile with
              | some p => [{ Name := some p.TerraformLink }]
              | none => []
            UserData :=
              -- `target.AddFileBytes` stores the user data and returns a
              -- literal referencing the stored file
              e.UserData.map (fun _ =>
                .fileRef "aws_launch_template" ((e.Name).getD "") "user_data")
            BlockDeviceMappings :=
              ebsBlockDevices rootM ++ ebsBlockDevices addM ++
                ephemeralBlockDevices ephM
            TagSpecifications :=
              match e.Tags with
              | some tags =>
                [{ ResourceType := some "instance", Tags := tags },
                 { ResourceType := some "volume", Tags := tags }]
              | none => []
            Tags := (e.Tags).getD [] }

/-- `LaunchTemplate.RenderTerraform`
(launchtemplate_target_terraform.go lines 181-315).  Returns the trace of
live-cloud calls visible in the routine's own body (the `cloud.ResolveImage`
call at line 188, issued whenever `e.ImageID` is set) together with either
an error or the rendered resource block.  The `a` and `changes` arguments
are never read by the Go routine. -/
def LaunchTemplate.RenderTerraform (cloud : AWSCloud)
    (a : Option LaunchTemplate) (e changes : LaunchTemplate) :
    List CloudCall × Except String TFLaunchTemplate :=
  match e.ImageID with
  | some imgName =>
    ([.awsResolveImage imgName],
      match cloud.resolveImage imgName with
      | .error err => .error err
      | .ok image => LaunchTemplate.renderBody cloud e image)
  | none => ([], LaunchTemplate.renderBody cloud e none)
/-! ## Log dumper (src/unnamed/part_002) -/

/-- A `corev1.Node` as read by the dumper: its name, the set of label keys,
and its status addresses in order (type, address). -/
structure KubeNode where
  name : String := ""
  labels : List String := []
  addresses : List (String × String) := []
deriving DecidableEq, Repr

/-- A node carrying one of the three control-plane role labels
(DumpAllNodes lines 114-125). -/
def KubeNode.isSpecial (n : KubeNode) : Bool :=
  n.labels.contains "node-role.kubernetes.io/master" ||
    n.labels.contains "node-role.kubernetes.io/control-plane" ||
    n.labels.contains "node-role.kubernetes.io/api-server"

/-- One dump attempt: `dumpRegistered` on a node fetched from the API, or
`dumpNotRegistered` on an extra IP. -/
inductive DumpAttempt where
  | registered (name : String)
  | notRegistered (ip : String) (useBastion : Bool)
deriving DecidableEq, Repr

/-- `findInstancesNotDumped` (part_002 lines 221-236): the ips that appear
as no address of any dumped node. -/
def findInstancesNotDumped (ips : List String) (dumped : List KubeNode) :
    List String :=
  ips.filter (fun ip =>
    !(dumped.any (fun n => n.addresses.any (fun ad => ad.2 = ip))))

/-- The regular-node loop of `DumpAllNodes` (lines 140-152): before each
node, if at least `maxN` nodes were dumped the whole function returns (the
`Bool` flags that early return); otherwise the node is attempted and, when
the attempt succeeds (`success`), appended to `dumped`. -/
def dumpRegularLoop (success : KubeNode → Bool) (maxN : Nat) :
    List KubeNode → List KubeNode → List DumpAttempt × List KubeNode × Bool
  | [], dumped => ([], dumped, false)
  | n :: rest, dumped =>
    if dumped.length ≥ maxN then ([], dumped, true)
    else
      let dumped1 := if success n then dumped ++ [n] else dumped
      let step := dumpRegularLoop success maxN rest dumped1
      (.registered n.name :: step.1, step.2)

/-- The additional-IP loops of `DumpAllNodes` (lines 154-176): `dumped` is
never extended by `dumpNotRegistered`, so the limit check reads the same
count before every ip. -/
def dumpAdditionalLoop (maxN : Nat) (dumped : List KubeNode)
    (useBastion : Bool) : List String → List DumpAttempt × Bool
  | [] => ([], false)
  | ip :: rest =>
    if dumped.length ≥ maxN then ([], true)
    else
      let step := dumpAdditionalLoop maxN dumped useBastion rest
      (.notRegistered ip useBastion :: step.1, step.2)

/-- `logDumper.DumpAllNodes` (part_002 lines 107-179): splits the fetched
nodes into control-plane ("special") and regular ones, attempts every
special node with no limit check, then runs the limited regular and
additional-IP loops.  `success` tells whether `dumpRegistered` succeeds for
a node.  Returns the ordered attempt trace and the final `dumped` list. -/
def DumpAllNodes (success : KubeNode → Bool) (nodes : List KubeNode)
    (maxNodesToDump : Nat) (additionalIPs additionalPrivateIPs : List String) :
    List DumpAttempt × List KubeNode :=
  let special := nodes.filter KubeNode.isSpecial
  let regular := nodes.filter (fun n => !n.isSpecial)
  let specialAttempts := special.map (fun n => DumpAttempt.registered n.name)
  let dumped0 := special.filter success
  let reg := dumpRegularLoop success maxNodesToDump regular dumped0
  let rest : List DumpAttempt :=
    if reg.2.2 then []
    else
      let nd1 := findInstancesNotDumped additionalIPs reg.2.1
      let add1 := dumpAdditionalLoop maxNodesToDump reg.2.1 false nd1
      if add1.2 then add1.1
      else
        let nd2 := findInstancesNotDumped additionalPrivateIPs reg.2.1
        let add2 := dumpAdditionalLoop maxNodesToDump reg.2.1 true nd2
        add1.1 ++ add2.1
  (specialAttempts ++ reg.1 ++ rest, reg.2.1)

/-! ## Scheduler tie-break -/

/-- A task's stable ordering key: task type then name, compared
lexicographically. -/
abbrev TaskKey := Lex (String × String)

/-- Modelled from the spec: the scheduler (not under src/) breaks ordering
ties within a dependency layer by the stable key "task type then name"
(spec §4.1), keeping template output deterministic across runs. -/
def stableTaskOrder (ts : List TaskKey) : List TaskKey :=
  ts.insertionSort (· ≤ ·)

/-! ## Helper lemmas -/

/-- When the changes object is not empty, the engine run is decided by the
validation routine. -/
theorem engineRun_check_err {τ : Type} {ce : τ → Bool}
    {ch : Option τ → τ → τ → Option FiError} {a : Option τ} {e c : τ}
    {err : FiError} (h1 : ce c = false) (h2 : ch a e c = some err) :
    engineRun ce ch a e c = .validationFailed err := by
  unfold engineRun
  simp [h1, h2]

/-- On create (actual nil) the engine run is decided by the validation
routine. -/
theorem engineRun_create {τ : Type} {ce : τ → Bool}
    {ch : Option τ → τ → τ → Option FiError} {e c : τ} {err : FiError}
    (h2 : ch none e c = some err) :
    engineRun ce ch none e c = .validationFailed err := by
  unfold engineRun
  simp [h2]

/-! ## C1 -/

/-- C1 (counterexample): applying an existing Azure Disk with an empty
changes object does issue a cloud mutation — `Disk.RenderAzure` calls
`CreateOrUpdate` unconditionally (disk.go lines 119-149 contain no
empty-changes guard), so at this concrete input with actual non-nil and an
empty changes object the mutation trace is non-empty. -/
theorem c1_counterexample :
    Disk.changesEmpty { } = true ∧
    mutations (Disk.RenderAzure "eastus2"
      (some { Name := some "d1", ResourceGroup := some { Name := some "rg" },
              SizeGB := some 32 })
      { Name := some "d1", ResourceGroup := some { Name := some "rg" },
        SizeGB := some 32 }
      { }) ≠ [] := by
  constructor
  · rfl
  · decide

/-- C1 (amended): with actual non-nil and an empty changes object the
OpenStack LBListener apply issues no cloud mutation (it only performs the
read-only `UseLoadBalancerVIPACL` probe); the Azure Disk apply, by
contrast, issues exactly one `CreateOrUpdate` mutation on every invocation,
whatever the actual state and changes object — its idempotence relies on
the engine not invoking the apply routine when the changes object is
empty. -/
theorem c1_amended_empty_changes :
    (∀ (t : OSListenerTarget) (a0 e c : LBListener),
      LBListener.changesEmpty c = true →
      mutations (LBListener.RenderOpenstack t (some a0) e c).1 = []) ∧
    (∀ (region : String) (a : Option Disk) (e c : Disk),
      (mutations (Disk.RenderAzure region a e c)).length = 1) := by
  constructor
  · intro t a0 e c hc
    have hcidr : c.AllowedCIDRs = [] := by
      unfold LBListener.changesEmpty at hc
      simp only [Bool.and_eq_true, decide_eq_true_eq] at hc
      exact hc.2
    rcases t with ⟨v, cr, up⟩
    cases v with
    | error err => rfl
    | ok b =>
      unfold LBListener.RenderOpenstack
      simp [hcidr, mutations, CloudCall.isMutation]
  · intro region a e c
    rfl

/-- C1 witness: the amended theorem applied at a concrete existing listener
with an empty changes object, and at a concrete disk. -/
theorem c1_amended_empty_changes_witness :
    (LBListener.changesEmpty { } = true ∧
      mutations (LBListener.RenderOpenstack ⟨.ok true, .ok "lid", .ok ()⟩
        (some { ID := some "l1" }) { ID := some "l1" } { }).1 = []) ∧
    (mutations (Disk.RenderAzure "westus" none { Name := some "d" }
      { })).length = 1 :=
  ⟨⟨by decide, c1_amended_empty_changes.1 ⟨.ok true, .ok "lid", .ok ()⟩
      { ID := some "l1" } { ID := some "l1" } { } (by decide)⟩,
    c1_amended_empty_changes.2 "westus" none { Name := some "d" } { }⟩

/-! ## C2 -/

/-- C2: with actual non-nil, a changes object flagging a declared-immutable
field (Subnet: Name, Network or CIDR; LBListener: ID or Name) makes
`CheckChanges` return a cannot-change error naming a flagged immutable
field, and the engine run ends in validation failure — the apply routine is
not reached. -/
theorem c2_immutable_fields_block_apply :
    (∀ (a0 e c : Subnet),
      c.Name ≠ none ∨ c.Network ≠ none ∨ c.CIDR ≠ none →
      ∃ f, ((c.Name ≠ none ∧ f = "Name") ∨
            (c.Network ≠ none ∧ f = "Network") ∨
            (c.CIDR ≠ none ∧ f = "CIDR")) ∧
        Subnet.CheckChanges (some a0) e c =
          some (.cannotChangeField f) ∧
        engineRun Subnet.changesEmpty Subnet.CheckChanges (some a0) e c =
          .validationFailed (.cannotChangeField f)) ∧
    (∀ (a0 e c : LBListener),
      c.ID ≠ none ∨ c.Name ≠ none →
      ∃ f, ((c.ID ≠ none ∧ f = "ID") ∨ (c.Name ≠ none ∧ f = "Name")) ∧
        LBListener.CheckChanges (some a0) e c =
          some (.cannotChangeField f) ∧
        engineRun LBListener.changesEmpty LBListener.CheckChanges
          (some a0) e c = .validationFailed (.cannotChangeField f)) := by
  constructor
  · intro a0 e c h
    by_cases hn : c.Name = none
    · by_cases hw : c.Network = none
      · have hc : c.CIDR ≠ none := by tauto
        have hch : Subnet.CheckChanges (some a0) e c =
            some (.cannotChangeField "CIDR") := by
          unfold Subnet.CheckChanges
          simp [hn, hw, hc]
        exact ⟨"CIDR", Or.inr (Or.inr ⟨hc, rfl⟩), hch,
          engineRun_check_err (by simp [Subnet.changesEmpty, hc]) hch⟩
      · have hch : Subnet.CheckChanges (some a0) e c =
            some (.cannotChangeField "Network") := by
          unfold Subnet.CheckChanges
          simp [hn, hw]
        exact ⟨"Network", Or.inr (Or.inl ⟨hw, rfl⟩), hch,
          engineRun_check_err (by simp [Subnet.changesEmpty, hw]) hch⟩
    · have hch : Subnet.CheckChanges (some a0) e c =
          some (.cannotChangeField "Name") := by
        unfold Subnet.CheckChanges
        simp [hn]
      exact ⟨"Name", Or.inl ⟨hn, rfl⟩, hch,
        engineRun_check_err (by simp [Subnet.changesEmpty, hn]) hch⟩
  · intro a0 e c h
    by_cases hi : c.ID = none
    · have hn : c.Name ≠ none := by tauto
      have hch : LBListener.CheckChanges (some a0) e c =
          some (.cannotChangeField "Name") := by
        unfold LBListener.CheckChanges
        simp [hi, hn]
      exact ⟨"Name", Or.inr ⟨hn, rfl⟩, hch,
        engineRun_check_err (by simp [LBListener.changesEmpty, hn]) hch⟩
    · have hch : LBListener.CheckChanges (some a0) e c =
          some (.cannotChangeField "ID") := by
        unfold LBListener.CheckChanges
        simp [hi]
      exact ⟨"ID", Or.inl ⟨hi, rfl⟩, hch,
        engineRun_check_err (by simp [LBListener.changesEmpty, hi]) hch⟩

/-- A concrete changes object flagging the Subnet CIDR field. -/
def subnetCIDRChange : Subnet := { CIDR := some "10.0.0.0/8" }

/-- A concrete changes object flagging the LBListener ID field. -/
def lblIDChange : LBListener := { ID := some "x" }

/-- C2 witness: changing a Subnet's CIDR (resp. an LBListener's ID) on an
existing resource fails validation with the cannot-change error,
concretely. -/
theorem c2_immutable_fields_block_apply_witness :
    ((subnetCIDRChange.Name ≠ none ∨ subnetCIDRChange.Network ≠ none ∨
        subnetCIDRChange.CIDR ≠ none) ∧
      ∃ f, ((subnetCIDRChange.Name ≠ none ∧ f = "Name") ∨
            (subnetCIDRChange.Network ≠ none ∧ f = "Network") ∨
            (subnetCIDRChange.CIDR ≠ none ∧ f = "CIDR")) ∧
        Subnet.CheckChanges (some { ID := some "s1" })
          { Name := some "subnet-a" } subnetCIDRChange =
          some (.cannotChangeField f) ∧
        engineRun Subnet.changesEmpty Subnet.CheckChanges
          (some { ID := some "s1" }) { Name := some "subnet-a" }
          subnetCIDRChange = .validationFailed (.cannotChangeField f)) ∧
    ((lblIDChange.ID ≠ none ∨ lblIDChange.Name ≠ none) ∧
      ∃ f, ((lblIDChange.ID ≠ none ∧ f = "ID") ∨
            (lblIDChange.Name ≠ none ∧ f = "Name")) ∧
        LBListener.CheckChanges (some { ID := some "l1" })
          { Name := some "listener-a" } lblIDChange =
          some (.cannotChangeField f) ∧
        engineRun LBListener.changesEmpty LBListener.CheckChanges
          (some { ID := some "l1" }) { Name := some "listener-a" }
          lblIDChange = .validationFailed (.cannotChangeField f)) :=
  ⟨⟨by decide, c2_immutable_fields_block_apply.1 { ID := some "s1" }
      { Name := some "subnet-a" } subnetCIDRChange (by decide)⟩,
    ⟨by decide, c2_immutable_fields_block_apply.2 { ID := some "l1" }
      { Name := some "listener-a" } lblIDChange (by decide)⟩⟩

/-! ## C3 -/

/-- C3: on create (actual nil), an expected task missing a
creation-required field (Subnet: Name, Network, CIDR; Disk: Name) makes
`CheckChanges` return a required-field error naming an unset required
field, and the engine run ends in validation failure — no apply routine
runs. -/
theorem c3_required_fields_block_apply :
    (∀ (e c : Subnet),
      e.Name = none ∨ e.Network = none ∨ e.CIDR = none →
      ∃ f, ((e.Name = none ∧ f = "Name") ∨
            (e.Network = none ∧ f = "Network") ∨
            (e.CIDR = none ∧ f = "CIDR")) ∧
        Subnet.CheckChanges none e c = some (.requiredField f) ∧
        engineRun Subnet.changesEmpty Subnet.CheckChanges none e c =
          .validationFailed (.requiredField f)) ∧
    (∀ (e c : Disk),
      e.Name = none →
      Disk.CheckChanges none e c = some (.requiredField "Name") ∧
      engineRun Disk.changesEmpty Disk.CheckChanges none e c =
        .validationFailed (.requiredField "Name")) := by
  constructor
  · intro e c h
    by_cases hn : e.Name = none
    · have hch : Subnet.CheckChanges none e c =
          some (.requiredField "Name") := by
        unfold Subnet.CheckChanges
        simp [hn]
      exact ⟨"Name", Or.inl ⟨hn, rfl⟩, hch, engineRun_create hch⟩
    · by_cases hw : e.Network = none
      · have hch : Subnet.CheckChanges none e c =
            some (.requiredField "Network") := by
          unfold Subnet.CheckChanges
          simp [hn, hw]
        exact ⟨"Network", Or.inr (Or.inl ⟨hw, rfl⟩), hch, engineRun_create hch⟩
      · have hc : e.CIDR = none := by tauto
        have hch : Subnet.CheckChanges none e c =
            some (.requiredField "CIDR") := by
          unfold Subnet.CheckChanges
          simp [hn, hw, hc]
        exact ⟨"CIDR", Or.inr (Or.inr ⟨hc, rfl⟩), hch, engineRun_create hch⟩
  · intro e c hn
    have hch : Disk.CheckChanges none e c = some (.requiredField "Name") := by
      unfold Disk.CheckChanges
      simp [hn]
    exact ⟨hch, engineRun_create hch⟩

/-- A concrete Subnet task missing its Network (Name and CIDR set). -/
def subnetNoNetwork : Subnet :=
  { Name := some "subnet-a", CIDR := some "10.0.1.0/24" }

/-- C3 witness: creating a Subnet with `Network` unset (resp. a Disk with
`Name` unset) fails validation with the required-field error,
concretely. -/
theorem c3_required_fields_block_apply_witness :
    ((subnetNoNetwork.Name = none ∨ subnetNoNetwork.Network = none ∨
        subnetNoNetwork.CIDR = none) ∧
      ∃ f, ((subnetNoNetwork.Name = none ∧ f = "Name") ∨
            (subnetNoNetwork.Network = none ∧ f = "Network") ∨
            (subnetNoNetwork.CIDR = none ∧ f = "CIDR")) ∧
        Subnet.CheckChanges none subnetNoNetwork subnetNoNetwork =
          some (.requiredField f) ∧
        engineRun Subnet.changesEmpty Subnet.CheckChanges none
          subnetNoNetwork subnetNoNetwork =
          .validationFailed (.requiredField f)) ∧
    (({ } : Disk).Name = none ∧
      Disk.CheckChanges none { } { } = some (.requiredField "Name") ∧
      engineRun Disk.changesEmpty Disk.CheckChanges none { } { } =
        .validationFailed (.requiredField "Name")) :=
  ⟨⟨by decide, c3_required_fields_block_apply.1 subnetNoNetwork
      subnetNoNetwork (by decide)⟩,
    ⟨by decide, c3_required_fields_block_apply.2 { } { } (by decide)⟩⟩

/-! ## C4 -/

/-- Two distinct cloud disks carrying the same name. -/
def twoDisksSameName : List AzureCloudDisk :=
  [{ Name := "d", SizeGB := some 10 }, { Name := "d", SizeGB := some 20 }]

/-- The Disk task whose identity criterion (its name) both cloud disks
match. -/
def diskTaskD : Disk :=
  { Name := some "d", ResourceGroup := some { Name := some "rg" } }

/-- C4 (counterexample): `Disk.Find` does not return a fatal ambiguity
error when more than one candidate matches the task's identity criteria —
with two cloud disks both named "d" it silently returns the task built from
the first one. -/
theorem c4_counterexample :
    (twoDisksSameName.filter
      (fun v => some v.Name = diskTaskD.Name)).length = 2 ∧
    Disk.Find (.ok twoDisksSameName) diskTaskD =
      .ok (some { Name := some "d", ResourceGroup := some { Name := some "rg" },
                  SizeGB := some 10 }) := by
  constructor
  · rfl
  · rfl

/-- C4 (amended): discovery behaviour per task.  `LBListener.Find` returns
nil for an unset name or an empty listing, errors when more than one
candidate matches, and returns the populated actual task for a unique
match.  `Subnet.Find` returns nil only for a nil listing and raises the
fatal "found multiple subnets" error for every non-nil listing whose length
differs from one (zero matches included).  `Disk.Find` returns nil when no
disk matches by name and otherwise returns the task built from the first
match, with no ambiguity check. -/
theorem c4_amended_discovery :
    (∀ (cloud : OSListenerCloud) (s : LBListener), s.Name = none →
      LBListener.Find cloud s = .ok (none, s)) ∧
    (∀ (cloud : OSListenerCloud) (s : LBListener), s.Name ≠ none →
      cloud.listListeners = .ok [] →
      LBListener.Find cloud s = .ok (none, s)) ∧
    (∀ (cloud : OSListenerCloud) (s : LBListener) (l : List OSListener),
      s.Name ≠ none → cloud.listListeners = .ok l → l.length > 1 →
      LBListener.Find cloud s =
        .error ("Multiple listeners found with name " ++ (s.Name).getD "")) ∧
    (∀ (cloud : OSListenerCloud) (s : LBListener) (x : OSListener)
        (actual updated : LBListener),
      s.Name ≠ none → cloud.listListeners = .ok [x] →
      NewLBListenerTaskFromCloud cloud x s = .ok (actual, updated) →
      LBListener.Find cloud s = .ok (some actual, updated)) ∧
    (∀ (cloud : OSSubnetCloud) (s : Subnet), cloud.listSubnets = .ok none →
      Subnet.Find cloud s = .ok (none, s)) ∧
    (∀ (cloud : OSSubnetCloud) (s : Subnet) (l : List OSSubnet),
      cloud.listSubnets = .ok (some l) → l.length ≠ 1 →
      Subnet.Find cloud s =
        .error ("found multiple subnets with name: " ++ (s.Name).getD "")) ∧
    (∀ (cloud : OSSubnetCloud) (s : Subnet) (x : OSSubnet)
        (actual updated : Subnet),
      cloud.listSubnets = .ok (some [x]) →
      NewSubnetTaskFromCloud cloud x s = .ok (actual, updated) →
      Subnet.Find cloud s = .ok (some actual, updated)) ∧
    (∀ (listing : List AzureCloudDisk) (d : Disk),
      listing.find? (fun v => some v.Name = d.Name) = none →
      Disk.Find (.ok listing) d = .ok none) ∧
    (∀ (listing : List AzureCloudDisk) (d : Disk) (found : AzureCloudDisk),
      listing.find? (fun v => some v.Name = d.Name) = some found →
      Disk.Find (.ok listing) d =
        .ok (some
          { Name := d.Name
            ResourceGroup := some
              { Name := (d.ResourceGroup.map (·.Name)).getD none }
            SizeGB := found.SizeGB
            Tags := found.Tags
            Zones := found.Zones
            VolumeType := found.SKUName })) := by
  refine ⟨?_, ?_, ?_, ?_, ?_, ?_, ?_, ?_, ?_⟩
  · intro cloud s h
    unfold LBListener.Find
    simp [h]
  · intro cloud s h hlist
    unfold LBListener.Find
    simp [h, hlist]
  · intro cloud s l h hlist hlen
    unfold LBListener.Find
    have h0 : ¬ l.length = 0 := by omega
    simp [h, hlist, h0, hlen]
  · intro cloud s x actual updated h hlist hnew
    unfold LBListener.Find
    simp [h, hlist, hnew]
  · intro cloud s h
    unfold Subnet.Find
    simp [h]
  · intro cloud s l hlist hlen
    unfold Subnet.Find
    rw [hlist]
    match l, hlen with
    | [], _ => rfl
    | x :: y :: rest, _ => rfl
    | [x], hlen => exact absurd rfl hlen
  · intro cloud s x actual updated hlist hnew
    unfold Subnet.Find
    rw [hlist]
    simp [hnew]
  · intro listing d h
    unfold Disk.Find
    simp [h]
  · intro listing d found h
    unfold Disk.Find
    simp [h]

/-- C4 witness: the amended discovery facts at concrete inputs — an empty
non-nil subnet listing errors, an empty listener listing reports absence,
and a unique name match populates the disk. -/
theorem c4_amended_discovery_witness :
    ((({ Name := some "lst" } : LBListener).Name ≠ none ∧
      (OSListenerCloud.mk (.ok []) (fun _ => .error "no pool")
          (fun _ _ => .error "no pool")).listListeners = .ok [] ∧
      LBListener.Find
        (OSListenerCloud.mk (.ok []) (fun _ => .error "no pool")
          (fun _ _ => .error "no pool")) { Name := some "lst" } =
        .ok (none, { Name := some "lst" })) ∧
    ((OSSubnetCloud.mk (.ok (some [])) (fun _ => .error "no net")).listSubnets
        = .ok (some []) ∧ ([] : List OSSubnet).length ≠ 1 ∧
      Subnet.Find (OSSubnetCloud.mk (.ok (some []))
          (fun _ => .error "no net")) { Name := some "sub" } =
        .error ("found multiple subnets with name: " ++ "sub")) ∧
    (([] : List AzureCloudDisk).find?
        (fun v => some v.Name = ({ Name := some "d" } : Disk).Name) = none ∧
      Disk.Find (.ok []) { Name := some "d" } = .ok none)) :=
  ⟨⟨by decide,
    rfl,
    c4_amended_discovery.2.1
      (OSListenerCloud.mk (.ok []) (fun _ => .error "no pool")
        (fun _ _ => .error "no pool")) { Name := some "lst" }
      (by decide) rfl⟩,
   ⟨rfl, by decide,
    c4_amended_discovery.2.2.2.2.2.1
      (OSSubnetCloud.mk (.ok (some [])) (fun _ => .error "no net"))
      { Name := some "sub" } [] rfl (by decide)⟩,
   ⟨rfl,
    c4_amended_discovery.2.2.2.2.2.2.2.1 [] { Name := some "d" } rfl⟩⟩

/-! ## C9 -/

/-- C9: `Subnet.Find` reports absence (`.ok` with no actual) exactly for a
nil listing; every non-nil listing whose length differs from one — an empty
non-nil listing included — produces the fatal "found multiple subnets"
error instead. -/
theorem c9_subnet_find_nil_only_absence :
    (∀ (cloud : OSSubnetCloud) (s : Subnet),
      cloud.listSubnets = .ok none → Subnet.Find cloud s = .ok (none, s)) ∧
    (∀ (cloud : OSSubnetCloud) (s res : Subnet),
      Subnet.Find cloud s = .ok (none, res) →
      cloud.listSubnets = .ok none) ∧
    (∀ (cloud : OSSubnetCloud) (s : Subnet) (l : List OSSubnet),
      cloud.listSubnets = .ok (some l) → l.length ≠ 1 →
      Subnet.Find cloud s =
        .error ("found multiple subnets with name: " ++ (s.Name).getD "")) := by
  refine ⟨?_, ?_, ?_⟩
  · intro cloud s h
    unfold Subnet.Find
    simp [h]
  · intro cloud s res h
    unfold Subnet.Find at h
    cases hls : cloud.listSubnets with
    | error err => rw [hls] at h; exact absurd h (by simp)
    | ok o =>
      cases o with
      | none => rfl
      | some rs =>
        rw [hls] at h
        match rs, h with
        | [], h => exact absurd h (by simp)
        | [x], h =>
          cases hnew : NewSubnetTaskFromCloud cloud x s with
          | error err => simp [hnew] at h
          | ok pr =>
            obtain ⟨actual, updated⟩ := pr
            simp [hnew] at h
        | x :: y :: rest, h => exact absurd h (by simp)
  · intro cloud s l hlist hlen
    unfold Subnet.Find
    rw [hlist]
    match l, hlen with
    | [], _ => rfl
    | x :: y :: rest, _ => rfl
    | [x], hlen => exact absurd rfl hlen

/-- C9 witness: a nil listing reports absence and an empty non-nil listing
errors, at concrete clouds. -/
theorem c9_subnet_find_nil_only_absence_witness :
    ((OSSubnetCloud.mk (.ok none) (fun _ => .error "no net")).listSubnets =
        .ok none ∧
      Subnet.Find (OSSubnetCloud.mk (.ok none) (fun _ => .error "no net"))
        { Name := some "s0" } = .ok (none, { Name := some "s0" })) ∧
    ((OSSubnetCloud.mk (.ok (some []))
        (fun _ => .error "no net")).listSubnets = .ok (some []) ∧
      ([] : List OSSubnet).length ≠ 1 ∧
      Subnet.Find (OSSubnetCloud.mk (.ok (some []))
          (fun _ => .error "no net")) { Name := some "s0" } =
        .error ("found multiple subnets with name: " ++ "s0")) :=
  ⟨⟨rfl,
    c9_subnet_find_nil_only_absence.1
      (OSSubnetCloud.mk (.ok none) (fun _ => .error "no net"))
      { Name := some "s0" } rfl⟩,
   ⟨rfl, by decide,
    c9_subnet_find_nil_only_absence.2.2
      (OSSubnetCloud.mk (.ok (some [])) (fun _ => .error "no net"))
      { Name := some "s0" } [] rfl (by decide)⟩⟩

/-! ## C5 -/

/-- Any successful `Subnet.RenderOpenstack` returns the expected task with
at most its ID changed. -/
theorem subnet_render_ok_frame (t : OSSubnetTarget) (a : Option Subnet)
    (e c e' : Subnet) (h : (Subnet.RenderOpenstack t a e c).2 = .ok e') :
    e' = { e with ID := e'.ID } := by
  rcases t with ⟨cs, tg, us⟩
  unfold Subnet.RenderOpenstack at h
  cases a with
  | none =>
    cases cs with
    | error err => simp at h
    | ok newID =>
      cases tg with
      | error err => simp at h
      | ok u =>
        simp at h
        rw [← h]
  | some a0 =>
    cases hct : c.Tag with
    | some tag =>
      cases tg with
      | error err => simp [hct] at h
      | ok u =>
        cases us with
        | error err => simp [hct] at h
        | ok u2 =>
          simp [hct] at h
          rw [← h]
    | none =>
      cases us with
      | error err => simp [hct] at h
      | ok u2 =>
        simp [hct] at h
        rw [← h]

/-- A successful `LBListener.RenderOpenstack` on an existing listener
returns the expected task unchanged. -/
theorem lblistener_render_existing_ok (t : OSListenerTarget)
    (a0 e c e' : LBListener)
    (h : (LBListener.RenderOpenstack t (some a0) e c).2 = .ok e') :
    e' = e := by
  rcases t with ⟨v, cr, up⟩
  unfold LBListener.RenderOpenstack at h
  cases v with
  | error err => simp at h
  | ok b =>
    simp at h
    split at h
    · split at h
      · cases up with
        | error err => simp at h
        | ok u => simp at h; exact h.symm
      · simp at h; exact h.symm
    · simp at h; exact h.symm

/-- Any successful `LBListener.RenderOpenstack` returns the expected task
with at most its ID changed. -/
theorem lblistener_render_ok_frame (t : OSListenerTarget)
    (a : Option LBListener) (e c e' : LBListener)
    (h : (LBListener.RenderOpenstack t a e c).2 = .ok e') :
    e' = { e with ID := e'.ID } := by
  cases a with
  | some a0 =>
    rw [lblistener_render_existing_ok t a0 e c e' h]
  | none =>
    rcases t with ⟨v, cr, up⟩
    unfold LBListener.RenderOpenstack at h
    cases v with
    | error err => simp at h
    | ok b =>
      cases cr with
      | error err => simp at h
      | ok newID =>
        simp at h
        rw [← h]

/-- C5 (counterexample): for an existing resource the LBListener apply does
not set expected's ID from actual's ID — with actual ID "actual-id" and a
stale expected ID "stale-id", the successful apply returns the expected
task with its ID still "stale-id". -/
theorem c5_counterexample :
    (LBListener.RenderOpenstack ⟨.ok true, .ok "fresh", .ok ()⟩
        (some { ID := some "actual-id" }) { ID := some "stale-id" } { }).2 =
      .ok { ID := some "stale-id" } ∧
    (some "stale-id" : Option String) ≠ some "actual-id" := ⟨rfl, by decide⟩

/-- C5 (amended): on a successful create both OpenStack applies write the
provider-assigned identifier back into the expected task's ID; for an
existing resource `Subnet.RenderOpenstack` sets expected's ID from actual's
ID while `LBListener.RenderOpenstack` leaves the expected task entirely
unchanged (its ID was already backfilled at discovery time); and in every
successful apply of either task the ID write-back is the only mutation —
all other fields of expected are returned unchanged. -/
theorem c5_amended_writeback_frame :
    (∀ (t : OSSubnetTarget) (e c : Subnet) (newID : String),
      t.createSubnet = .ok newID → t.appendTag = .ok () →
      (Subnet.RenderOpenstack t none e c).2 =
        .ok { e with ID := some newID }) ∧
    (∀ (t : OSSubnetTarget) (a0 e c : Subnet),
      t.appendTag = .ok () → t.updateSubnet = .ok () →
      (Subnet.RenderOpenstack t (some a0) e c).2 =
        .ok { e with ID := a0.ID }) ∧
    (∀ (t : OSListenerTarget) (e c : LBListener) (b : Bool) (newID : String),
      t.useVIPACL = .ok b → t.createListener = .ok newID →
      (LBListener.RenderOpenstack t none e c).2 =
        .ok { e with ID := some newID }) ∧
    (∀ (t : OSListenerTarget) (a0 e c e' : LBListener),
      (LBListener.RenderOpenstack t (some a0) e c).2 = .ok e' → e' = e) ∧
    (∀ (t : OSSubnetTarget) (a : Option Subnet) (e c e' : Subnet),
      (Subnet.RenderOpenstack t a e c).2 = .ok e' →
      e' = { e with ID := e'.ID }) ∧
    (∀ (t : OSListenerTarget) (a : Option LBListener) (e c e' : LBListener),
      (LBListener.RenderOpenstack t a e c).2 = .ok e' →
      e' = { e with ID := e'.ID }) := by
  refine ⟨?_, ?_, ?_, lblistener_render_existing_ok,
    subnet_render_ok_frame, lblistener_render_ok_frame⟩
  · intro t e c newID hcs htg
    rcases t with ⟨cs, tg, us⟩
    simp only at hcs htg
    unfold Subnet.RenderOpenstack
    simp [hcs, htg]
  · intro t a0 e c htg hus
    rcases t with ⟨cs, tg, us⟩
    simp only at htg hus
    unfold Subnet.RenderOpenstack
    cases hct : c.Tag with
    | some tag => simp [hct, htg, hus]
    | none => simp [hct, htg, hus]
  · intro t e c b newID hv hcr
    rcases t with ⟨v, cr, up⟩
    simp only at hv hcr
    unfold LBListener.RenderOpenstack
    simp [hv, hcr]

/-- C5 witness: the amended theorem at concrete targets — a create writes
"assigned-id" back, an existing-subnet apply adopts actual's ID, and an
existing-listener apply returns expected unchanged. -/
theorem c5_amended_writeback_frame_witness :
    ((OSSubnetTarget.mk (.ok "assigned-id") (.ok ()) (.ok ())).createSubnet =
        .ok "assigned-id" ∧
      (OSSubnetTarget.mk (.ok "assigned-id") (.ok ()) (.ok ())).appendTag =
        .ok () ∧
      (Subnet.RenderOpenstack
        (OSSubnetTarget.mk (.ok "assigned-id") (.ok ()) (.ok ())) none
        { Name := some "sn", Network := some { ID := some "net" },
          CIDR := some "10.0.1.0/24" } { }).2 =
        .ok { Name := some "sn", Network := some { ID := some "net" },
              CIDR := some "10.0.1.0/24", ID := some "assigned-id" }) ∧
    ((Subnet.RenderOpenstack
        (OSSubnetTarget.mk (.ok "assigned-id") (.ok ()) (.ok ()))
        (some { ID := some "real-id" }) { Name := some "sn" } { }).2 =
      .ok { Name := some "sn", ID := some "real-id" }) ∧
    ((LBListener.RenderOpenstack
        (OSListenerTarget.mk (.ok true) (.ok "lid") (.ok ()))
        (some { ID := some "real-id" }) { Name := some "ln" } { }).2 =
        .ok { Name := some "ln" } ∧
      ({ Name := some "ln" } : LBListener) = { Name := some "ln" }) :=
  ⟨⟨rfl, rfl,
    c5_amended_writeback_frame.1
      (OSSubnetTarget.mk (.ok "assigned-id") (.ok ()) (.ok ()))
      { Name := some "sn", Network := some { ID := some "net" },
        CIDR := some "10.0.1.0/24" } { } "assigned-id" rfl rfl⟩,
   c5_amended_writeback_frame.2.1
     (OSSubnetTarget.mk (.ok "assigned-id") (.ok ()) (.ok ()))
     { ID := some "real-id" } { Name := some "sn" } { } rfl rfl,
   ⟨rfl,
    c5_amended_writeback_frame.2.2.2.1
      (OSListenerTarget.mk (.ok true) (.ok "lid") (.ok ()))
      { ID := some "real-id" } { Name := some "ln" } { }
      { Name := some "ln" } rfl⟩⟩

/-! ## C6 -/

/-- A concrete AWS cloud oracle. -/
def awsCloudSample : AWSCloud :=
  { resolveImage := fun _ => .ok (some "ami-0123")
    rootDevices := .ok { keys := [], get := fun _ => none }
    ephemeralDevices := .ok { keys := [], get := fun _ => none } }

/-- C6 (counterexample): `LaunchTemplate.RenderTerraform` does call the
live cloud — whenever the expected task's `ImageID` is set it issues the
`cloud.ResolveImage` lookup (launchtemplate_target_terraform.go line 188),
so its call trace at this concrete input is non-empty. -/
theorem c6_counterexample :
    (LaunchTemplate.RenderTerraform awsCloudSample none
      { Name := some "lt", ImageID := some "ubuntu-22-04" } { }).1 =
      [.awsResolveImage "ubuntu-22-04"] ∧
    (LaunchTemplate.RenderTerraform awsCloudSample none
      { Name := some "lt", ImageID := some "ubuntu-22-04" } { }).1 ≠
      [] := by
  constructor
  · rfl
  · decide

/-- C6 (amended): the template-emission render issues no *mutating* cloud
call for any input (actual, expected, changes); the only live-cloud call in
its trace is the read-only image-resolution lookup, issued exactly when
`ImageID` is set. -/
theorem c6_amended_render_no_mutation :
    ∀ (cloud : AWSCloud) (a : Option LaunchTemplate) (e c : LaunchTemplate),
      mutations (LaunchTemplate.RenderTerraform cloud a e c).1 = [] ∧
      ((LaunchTemplate.RenderTerraform cloud a e c).1 =
        match e.ImageID with
        | some imgName => [.awsResolveImage imgName]
        | none => []) := by
  intro cloud a e c
  unfold LaunchTemplate.RenderTerraform
  cases e.ImageID with
  | none => exact ⟨rfl, rfl⟩
  | some img => exact ⟨rfl, rfl⟩

/-! ## C7 -/

/-- Projections of a successful render body: the reference-valued fields
hold the referenced tasks' terraform links. -/
theorem renderBody_ok_fields (cloud : AWSCloud) (e : LaunchTemplate)
    (image : Option String) (tf : TFLaunchTemplate)
    (h : LaunchTemplate.renderBody cloud e image = .ok tf) :
    tf.NetworkInterfaces.map (·.SecurityGroups) =
      [e.SecurityGroups.map SecurityGroup.TerraformLink] ∧
    tf.KeyName = e.SSHKey.map SSHKey.TerraformLink ∧
    tf.IAMInstanceProfile =
      (match e.IAMInstanceProfile with
       | some p => [{ Name := some p.TerraformLink }]
       | none => []) := by
  unfold LaunchTemplate.renderBody at h
  split at h
  · simp at h
  · split at h
    · simp at h
    · split at h
      · simp at h
      · simp at h
        subst h
        exact ⟨rfl, rfl, rfl⟩

/-- The expected task with the identifiers of all referenced tasks erased
(names kept). -/
def LaunchTemplate.eraseRefIDs (e : LaunchTemplate) : LaunchTemplate :=
  { e with
    SecurityGroups := e.SecurityGroups.map (fun sg => { sg with ID := none })
    SSHKey := e.SSHKey.map (fun k => { k with ID := none })
    IAMInstanceProfile :=
      e.IAMInstanceProfile.map (fun p => { p with ID := none }) }

/-- The render body is unchanged by erasing referenced-task identifiers:
no part of the emitted block reads a referenced task's ID. -/
theorem renderBody_eraseRefIDs (cloud : AWSCloud) (e : LaunchTemplate)
    (image : Option String) :
    LaunchTemplate.renderBody cloud (LaunchTemplate.eraseRefIDs e) image =
      LaunchTemplate.renderBody cloud e image := by
  unfold LaunchTemplate.renderBody
  have hbd : (LaunchTemplate.eraseRefIDs e).BlockDeviceMappings =
      e.BlockDeviceMappings := rfl
  rw [hbd]
  cases cloud.rootDevices with
  | error err => rfl
  | ok rootM =>
    cases buildAdditionalDevices e.BlockDeviceMappings with
    | error err => rfl
    | ok addM =>
      cases cloud.ephemeralDevices with
      | error err => rfl
      | ok ephM =>
        simp only [LaunchTemplate.eraseRefIDs, List.map_map, Option.map_map]
        cases e.IAMInstanceProfile <;> rfl

/-- C7: every reference-valued field of the rendered launch template (the
network interface's security groups, the key name, the IAM instance
profile) is emitted as a symbolic terraform reference of the form
type.name.attribute built from the referenced task's *name*; and the whole
render output is invariant under erasing the referenced tasks'
identifiers, so the emitted value is never the referenced task's
identifier. -/
theorem c7_symbolic_references :
    (∀ (cloud : AWSCloud) (a : Option LaunchTemplate)
        (e c : LaunchTemplate) (tf : TFLaunchTemplate),
      (LaunchTemplate.RenderTerraform cloud a e c).2 = .ok tf →
      tf.NetworkInterfaces.map (·.SecurityGroups) =
        [e.SecurityGroups.map (fun sg =>
          TFLiteral.property "aws_security_group" ((sg.Name).getD "") "id")] ∧
      (∀ k, e.SSHKey = some k →
        tf.KeyName =
          some (.property "aws_key_pair" ((k.Name).getD "") "key_name")) ∧
      (∀ p, e.IAMInstanceProfile = some p →
        tf.IAMInstanceProfile =
          [{ Name := some (.property "aws_iam_instance_profile"
              ((p.Name).getD "") "id") }])) ∧
    (∀ (cloud : AWSCloud) (a : Option LaunchTemplate) (e c : LaunchTemplate),
      LaunchTemplate.RenderTerraform cloud a
        (LaunchTemplate.eraseRefIDs e) c =
        LaunchTemplate.RenderTerraform cloud a e c) := by
  constructor
  · intro cloud a e c tf h
    have hb : ∃ image, LaunchTemplate.renderBody cloud e image = .ok tf := by
      unfold LaunchTemplate.RenderTerraform at h
      cases himg : e.ImageID with
      | none =>
        rw [himg] at h
        exact ⟨none, h⟩
      | some img =>
        rw [himg] at h
        cases hres : cloud.resolveImage img with
        | error err => simp [hres] at h
        | ok image =>
          simp only [hres] at h
          exact ⟨image, h⟩
    obtain ⟨image, hb⟩ := hb
    obtain ⟨h1, h2, h3⟩ := renderBody_ok_fields cloud e image tf hb
    refine ⟨h1, ?_, ?_⟩
    · intro k hk
      rw [h2, hk]
      rfl
    · intro p hp
      rw [h3, hp]
      rfl
  · intro cloud a e c
    unfold LaunchTemplate.RenderTerraform
    have himg : (LaunchTemplate.eraseRefIDs e).ImageID = e.ImageID := rfl
    rw [himg]
    simp only [renderBody_eraseRefIDs]

/-- A concrete expected launch template referencing two security groups,
an SSH key and an instance profile (all with identifiers set). -/
def c7expected : LaunchTemplate :=
  { Name := some "lt"
    SecurityGroups := [{ Name := some "sg-a", ID := some "id-a" },
                       { Name := some "sg-b", ID := some "id-b" }]
    SSHKey := some { Name := some "kp", ID := some "id-k" }
    IAMInstanceProfile := some { Name := some "prof", ID := some "id-p" } }

/-- The block `c7expected` renders to against the sample cloud. -/
def c7rendered : TFLaunchTemplate :=
  match (LaunchTemplate.RenderTerraform awsCloudSample none c7expected
    { }).2 with
  | .ok tf => tf
  | .error _ => { }

/-- C7 witness: the concrete render succeeds and every reference field of
its output is the symbolic reference built from the referenced task's
name — not any of the identifiers id-a, id-b, id-k, id-p. -/
theorem c7_symbolic_references_witness :
    (LaunchTemplate.RenderTerraform awsCloudSample none c7expected { }).2 =
      .ok c7rendered ∧
    c7rendered.NetworkInterfaces.map (·.SecurityGroups) =
      [[TFLiteral.property "aws_security_group" "sg-a" "id",
        TFLiteral.property "aws_security_group" "sg-b" "id"]] ∧
    c7rendered.KeyName =
      some (.property "aws_key_pair" "kp" "key_name") ∧
    c7rendered.IAMInstanceProfile =
      [{ Name := some (.property "aws_iam_instance_profile" "prof" "id") }] := by
  have h := c7_symbolic_references.1 awsCloudSample none c7expected { }
    c7rendered rfl
  exact ⟨rfl, h.1, h.2.1 { Name := some "kp", ID := some "id-k" } rfl,
    h.2.2 { Name := some "prof", ID := some "id-p" } rfl⟩

/-! ## C8 -/

/-- Two Go maps holding the same contents, possibly iterated in different
orders by two runs. -/
def GoMap.permEquiv {V : Type} (m1 m2 : GoMap V) : Prop :=
  m1.keys.Perm m2.keys ∧ m1.get = m2.get

/-- Device-map oracle responses representing the same outcome across two
runs: the same error, or the same map contents up to iteration order. -/
def devicesPermEquiv {V : Type} :
    Except String (GoMap V) → Except String (GoMap V) → Prop
  | .error e1, .error e2 => e1 = e2
  | .ok m1, .ok m2 => m1.permEquiv m2
  | _, _ => False

/-- Sorting the keys erases iteration-order differences. -/
theorem GoMap.sortedKeys_permEquiv {V : Type} {m1 m2 : GoMap V}
    (h : m1.permEquiv m2) : m1.sortedKeys = m2.sortedKeys := by
  refine List.eq_of_perm_of_sorted ?_
    (List.sorted_insertionSort _ m1.keys)
    (List.sorted_insertionSort _ m2.keys)
  exact ((List.perm_insertionSort _ m1.keys).trans h.1).trans
    (List.perm_insertionSort _ m2.keys).symm

/-- The EBS block-device section is independent of map iteration order. -/
theorem ebsBlockDevices_permEquiv {m1 m2 : GoMap BlockDeviceMapping}
    (h : m1.permEquiv m2) : ebsBlockDevices m1 = ebsBlockDevices m2 := by
  unfold ebsBlockDevices
  rw [GoMap.sortedKeys_permEquiv h, h.2]

/-- The ephemeral block-device section is independent of map iteration
order. -/
theorem ephemeralBlockDevices_permEquiv {m1 m2 : GoMap BlockDeviceMapping}
    (h : m1.permEquiv m2) :
    ephemeralBlockDevices m1 = ephemeralBlockDevices m2 := by
  unfold ephemeralBlockDevices
  rw [GoMap.sortedKeys_permEquiv h, h.2]

/-- The render body is identical across two runs whose cloud device maps
agree up to iteration order. -/
theorem renderBody_permEquiv (cloud1 cloud2 : AWSCloud)
    (hroot : devicesPermEquiv cloud1.rootDevices cloud2.rootDevices)
    (heph : devicesPermEquiv cloud1.ephemeralDevices
      cloud2.ephemeralDevices) :
    ∀ (e : LaunchTemplate) (image : Option String),
      LaunchTemplate.renderBody cloud1 e image =
        LaunchTemplate.renderBody cloud2 e image := by
  intro e image
  unfold LaunchTemplate.renderBody
  cases h1 : cloud1.rootDevices with
  | error e1 =>
    cases h2 : cloud2.rootDevices with
    | error e2 =>
      rw [h1, h2] at hroot
      simp only [devicesPermEquiv] at hroot
      rw [hroot]
    | ok m2 =>
      rw [h1, h2] at hroot
      simp only [devicesPermEquiv] at hroot
  | ok m1 =>
    cases h2 : cloud2.rootDevices with
    | error e2 =>
      rw [h1, h2] at hroot
      simp only [devicesPermEquiv] at hroot
    | ok m2 =>
      rw [h1, h2] at hroot
      simp only [devicesPermEquiv] at hroot
      simp only [ebsBlockDevices_permEquiv hroot]
      cases h3 : cloud1.ephemeralDevices with
      | error f1 =>
        cases h4 : cloud2.ephemeralDevices with
        | error f2 =>
          rw [h3, h4] at heph
          simp only [devicesPermEquiv] at heph
          rw [heph]
        | ok n2 =>
          rw [h3, h4] at heph
          simp only [devicesPermEquiv] at heph
      | ok n1 =>
        cases h4 : cloud2.ephemeralDevices with
        | error f2 =>
          rw [h3, h4] at heph
          simp only [devicesPermEquiv] at heph
        | ok n2 =>
          rw [h3, h4] at heph
          simp only [devicesPermEquiv] at heph
          simp only [ephemeralBlockDevices_permEquiv heph]

/-- The device names of an EBS block-device section: one `some k` per
still-present sorted key. -/
theorem map_deviceName_filterMap (g : String → Option BlockDeviceMapping)
    (l : List String) :
    ((l.filterMap (fun k =>
      (g k).map (createTerraformLaunchTemplateBlockDevice k))).map
        (·.DeviceName)) =
      (l.filter (fun k => (g k).isSome)).map some := by
  induction l with
  | nil => rfl
  | cons k rest ih =>
    cases hk : g k with
    | none => simpa [List.filterMap_cons, List.filter_cons, hk] using ih
    | some v => simpa [List.filterMap_cons, List.filter_cons, hk,
        createTerraformLaunchTemplateBlockDevice] using ih

/-- Likewise for the ephemeral section. -/
theorem map_deviceName_filterMap_eph (g : String → Option BlockDeviceMapping)
    (l : List String) :
    ((l.filterMap (fun k => (g k).map (fun v =>
      ({ VirtualName := v.VirtualName, DeviceName := some k } :
        TFBlockDevice)))).map (·.DeviceName)) =
      (l.filter (fun k => (g k).isSome)).map some := by
  induction l with
  | nil => rfl
  | cons k rest ih =>
    cases hk : g k with
    | none => simpa [List.filterMap_cons, List.filter_cons, hk] using ih
    | some v => simpa [List.filterMap_cons, List.filter_cons, hk] using ih

/-- C8: (i) a successful render emits the block-device mappings as the
three groups root ++ additional ++ ephemeral, and within every group the
emitted device names are the map's keys in sorted order (a sorted list);
(ii) two runs over the same cloud state whose Go maps are iterated in
different orders render byte-identically; (iii) the spec-modelled scheduler
tie-break (sort by task type then name) is a deterministic function of the
task set, invariant under input enumeration order. -/
theorem c8_deterministic_template_output :
    (∀ (cloud : AWSCloud) (a : Option LaunchTemplate)
        (e c : LaunchTemplate) (tf : TFLaunchTemplate)
        (rootM addM ephM : GoMap BlockDeviceMapping),
      cloud.rootDevices = .ok rootM →
      buildAdditionalDevices e.BlockDeviceMappings = .ok addM →
      cloud.ephemeralDevices = .ok ephM →
      (LaunchTemplate.RenderTerraform cloud a e c).2 = .ok tf →
      tf.BlockDeviceMappings =
        ebsBlockDevices rootM ++ ebsBlockDevices addM ++
          ephemeralBlockDevices ephM ∧
      (ebsBlockDevices rootM).map (·.DeviceName) =
        (rootM.sortedKeys.filter (fun k => (rootM.get k).isSome)).map some ∧
      List.Sorted (· ≤ ·)
        (rootM.sortedKeys.filter (fun k => (rootM.get k).isSome)) ∧
      (ebsBlockDevices addM).map (·.DeviceName) =
        (addM.sortedKeys.filter (fun k => (addM.get k).isSome)).map some ∧
      List.Sorted (· ≤ ·)
        (addM.sortedKeys.filter (fun k => (addM.get k).isSome)) ∧
      (ephemeralBlockDevices ephM).map (·.DeviceName) =
        (ephM.sortedKeys.filter (fun k => (ephM.get k).isSome)).map some ∧
      List.Sorted (· ≤ ·)
        (ephM.sortedKeys.filter (fun k => (ephM.get k).isSome))) ∧
    (∀ (cloud1 cloud2 : AWSCloud) (a : Option LaunchTemplate)
        (e c : LaunchTemplate),
      cloud1.resolveImage = cloud2.resolveImage →
      devicesPermEquiv cloud1.rootDevices cloud2.rootDevices →
      devicesPermEquiv cloud1.ephemeralDevices cloud2.ephemeralDevices →
      LaunchTemplate.RenderTerraform cloud1 a e c =
        LaunchTemplate.RenderTerraform cloud2 a e c) ∧
    (∀ ts1 ts2 : List TaskKey, ts1.Perm ts2 →
      stableTaskOrder ts1 = stableTaskOrder ts2) := by
  refine ⟨?_, ?_, ?_⟩
  · intro cloud a e c tf rootM addM ephM hroot hadd heph h
    have hb : ∃ image, LaunchTemplate.renderBody cloud e image = .ok tf := by
      unfold LaunchTemplate.RenderTerraform at h
      cases himg : e.ImageID with
      | none =>
        rw [himg] at h
        exact ⟨none, h⟩
      | some img =>
        rw [himg] at h
        cases hres : cloud.resolveImage img with
        | error err => simp [hres] at h
        | ok image =>
          simp only [hres] at h
          exact ⟨image, h⟩
    obtain ⟨image, hb⟩ := hb
    unfold LaunchTemplate.renderBody at hb
    rw [hroot, hadd, heph] at hb
    simp at hb
    refine ⟨?_, map_deviceName_filterMap rootM.get rootM.sortedKeys,
      (List.sorted_insertionSort _ rootM.keys).filter _,
      map_deviceName_filterMap addM.get addM.sortedKeys,
      (List.sorted_insertionSort _ addM.keys).filter _,
      map_deviceName_filterMap_eph ephM.get ephM.sortedKeys,
      (List.sorted_insertionSort _ ephM.keys).filter _⟩
    rw [← hb]
    simp [List.append_assoc]
  · intro cloud1 cloud2 a e c hres hroot heph
    unfold LaunchTemplate.RenderTerraform
    rw [hres]
    simp only [renderBody_permEquiv cloud1 cloud2 hroot heph]
  · intro ts1 ts2 hperm
    unfold stableTaskOrder
    refine List.eq_of_perm_of_sorted ?_
      (List.sorted_insertionSort _ ts1)
      (List.sorted_insertionSort _ ts2)
    exact ((List.perm_insertionSort _ ts1).trans hperm).trans
      (List.perm_insertionSort _ ts2).symm

/-- A concrete device-map lookup shared by the two C8 runs. -/
def c8get : String → Option BlockDeviceMapping := fun k =>
  if k = "xvda" || k = "xvdb" then some { EbsVolumeSize := some 16 }
  else none

/-- The concrete root device map as iterated by the first run. -/
def c8rootA : GoMap BlockDeviceMapping :=
  { keys := ["xvdb", "xvda"], get := c8get }

/-- The concrete (empty) ephemeral device map. -/
def c8ephA : GoMap BlockDeviceMapping :=
  { keys := [], get := fun _ => none }

/-- First run's cloud: root map keys iterated "xvdb" before "xvda". -/
def c8cloudA : AWSCloud :=
  { resolveImage := fun _ => .ok (some "ami-9")
    rootDevices := .ok c8rootA
    ephemeralDevices := .ok c8ephA }

/-- Second run's cloud: same contents, keys iterated the other way. -/
def c8cloudB : AWSCloud :=
  { resolveImage := fun _ => .ok (some "ami-9")
    rootDevices := .ok { keys := ["xvda", "xvdb"], get := c8get }
    ephemeralDevices := .ok c8ephA }

/-- The concrete expected launch template for the C8 runs. -/
def c8e : LaunchTemplate := { Name := some "lt" }

/-- The additional-device map built from `c8e`. -/
def c8addM : GoMap BlockDeviceMapping :=
  match buildAdditionalDevices c8e.BlockDeviceMappings with
  | .ok m => m
  | .error _ => { keys := [], get := fun _ => none }

/-- The block `c8e` renders to against the first run's cloud. -/
def c8tfA : TFLaunchTemplate :=
  match (LaunchTemplate.RenderTerraform c8cloudA none c8e { }).2 with
  | .ok tf => tf
  | .error _ => { }

/-- C8 witness: the determinism theorem at concrete inputs — a successful
concrete render whose device section is the three sorted groups, two
concrete runs over oppositely-iterated maps rendering identically, and the
scheduler tie-break agreeing on a two-task set enumerated both ways. -/
theorem c8_deterministic_template_output_witness :
    (c8cloudA.rootDevices = .ok c8rootA ∧
      buildAdditionalDevices c8e.BlockDeviceMappings = .ok c8addM ∧
      c8cloudA.ephemeralDevices = .ok c8ephA ∧
      (LaunchTemplate.RenderTerraform c8cloudA none c8e { }).2 =
        .ok c8tfA ∧
      c8tfA.BlockDeviceMappings =
        ebsBlockDevices c8rootA ++ ebsBlockDevices c8addM ++
          ephemeralBlockDevices c8ephA) ∧
    (c8cloudA.resolveImage = c8cloudB.resolveImage ∧
      devicesPermEquiv c8cloudA.rootDevices c8cloudB.rootDevices ∧
      devicesPermEquiv c8cloudA.ephemeralDevices
        c8cloudB.ephemeralDevices ∧
      LaunchTemplate.RenderTerraform c8cloudA none c8e { } =
        LaunchTemplate.RenderTerraform c8cloudB none c8e { }) ∧
    ([toLex ("aws_subnet", "a"), toLex ("aws_subnet", "b")] :
        List TaskKey).Perm
      [toLex ("aws_subnet", "b"), toLex ("aws_subnet", "a")] ∧
    stableTaskOrder
        [toLex ("aws_subnet", "a"), toLex ("aws_subnet", "b")] =
      stableTaskOrder
        [toLex ("aws_subnet", "b"), toLex ("aws_subnet", "a")] := by
  have hpermRoot : devicesPermEquiv c8cloudA.rootDevices
      c8cloudB.rootDevices := by
    refine ⟨?_, rfl⟩
    exact List.Perm.swap "xvda" "xvdb" []
  have hpermEph : devicesPermEquiv c8cloudA.ephemeralDevices
      c8cloudB.ephemeralDevices := ⟨List.Perm.nil, rfl⟩
  have hswap : ([toLex ("aws_subnet", "a"), toLex ("aws_subnet", "b")] :
      List TaskKey).Perm
      [toLex ("aws_subnet", "b"), toLex ("aws_subnet", "a")] :=
    List.Perm.swap (toLex ("aws_subnet", "b")) (toLex ("aws_subnet", "a")) []
  refine ⟨⟨rfl, rfl, rfl, rfl, ?_⟩, ⟨rfl, hpermRoot, hpermEph, ?_⟩,
    hswap, ?_⟩
  · exact (c8_deterministic_template_output.1 c8cloudA none c8e { } c8tfA
      c8rootA c8addM c8ephA rfl rfl rfl rfl).1
  · exact c8_deterministic_template_output.2.1 c8cloudA c8cloudB none c8e
      { } rfl hpermRoot hpermEph
  · exact c8_deterministic_template_output.2.2 _ _ hswap

/-! ## C10 -/

/-- A node carrying the control-plane role label. -/
def cpNode (nm : String) : KubeNode :=
  { name := nm, labels := ["node-role.kubernetes.io/control-plane"] }

/-- C10: `DumpAllNodes` attempts every control-plane-labelled node first —
for any inputs the attempt trace begins with exactly one registered-dump
attempt per special node, in order, with no `maxNodesToDump` check — and
the limit applies only afterwards, so a run with three control-plane nodes
and `maxNodesToDump = 1` still dumps all three. -/
theorem c10_control_plane_dumped_first :
    (∀ (success : KubeNode → Bool) (nodes : List KubeNode)
        (maxN : Nat) (addIPs addPrivIPs : List String),
      (DumpAllNodes success nodes maxN addIPs addPrivIPs).1.take
          (nodes.filter KubeNode.isSpecial).length =
        (nodes.filter KubeNode.isSpecial).map
          (fun n => DumpAttempt.registered n.name)) ∧
    ((DumpAllNodes (fun _ => true)
        [cpNode "m1", cpNode "m2", cpNode "m3"] 1 [] []).2.length = 3 ∧
      1 < 3) := by
  constructor
  · intro success nodes maxN addIPs addPrivIPs
    have key : ∀ (rest : List DumpAttempt),
        (((nodes.filter KubeNode.isSpecial).map
            (fun n => DumpAttempt.registered n.name)) ++ rest).take
          (nodes.filter KubeNode.isSpecial).length =
        (nodes.filter KubeNode.isSpecial).map
          (fun n => DumpAttempt.registered n.name) :=
      fun rest => List.take_left' (by rw [List.length_map])
    simp only [DumpAllNodes]
    rw [List.append_assoc]
    exact key _
  · exact ⟨by decide, by decide⟩

end Kops
